import Mathlib

/-!
Verification of the product-catalog HTTP server
(`server.py`, `filter.py`, `pagination.py`, tested by `test_filter.py`).

The catalog is a line-delimited JSON file; we embed it as the ordered list of
records it parses to.  The persisted filter store `current_filters.json` is a
flat JSON mapping; we embed each key as an optional JSON scalar.  Machine
floats are embedded as rationals; Python dynamic values flowing through the
handler are embedded by the inductive `JVal`.

The repository ships `server.py` and `test_filter.py`; the modules
`filter.py` and `pagination.py` are imported by both but are not part of the
source tree, so their functions are modelled from the specification (each
such definition carries a doc comment saying so).  Everything taken from
`server.py` cites the lines it transcribes.
-/

namespace Lyst

/-- JSON scalar values that can appear in the persisted filter mapping:
strings, booleans and `null`.  (These are the only value shapes the spec
assigns to the store's keys, §6.) -/
inductive JVal where
  | jstr (s : String)
  | jbool (b : Bool)
  | jnull
deriving DecidableEq

open JVal

/-- Python truthiness of a JSON scalar: the empty string, `False` and
`None` are falsy, everything else is truthy. -/
def JVal.truthy : JVal → Bool
  | jstr s => !(s == "")
  | jbool b => b
  | jnull => false

/-- Python `==` between a record field and a criterion value: values of
different runtime types compare unequal, same-type values compare by
structural equality. -/
def JVal.pyEq : JVal → JVal → Bool
  | jstr a, jstr b => a == b
  | jbool a, jbool b => a == b
  | jnull, jnull => true
  | _, _ => false

/-- A product record (spec §3): identifier, color, designer/brand, sale
flag, regular price, discount price and popularity score.  Prices and the
popularity score are numbers; we embed them as rationals. -/
structure Product where
  product_id : Nat
  color : String
  designer : String
  on_sale : Bool
  regular_price : ℚ
  discount_price : ℚ
  popularity_score : ℚ
deriving DecidableEq

/-- Effective price (spec §3 and glossary): `discount_price` when
`on_sale` is true, else `regular_price`. -/
def Product.effective_price (p : Product) : ℚ :=
  if p.on_sale then p.discount_price else p.regular_price

/-- Modelled from the spec: `filter.py` is not in `src/` (only its tests and
its caller `server.py` are).  `filter_by_color(products, color)` keeps the
records whose `color` field equals the criterion value — "color: exact
string match" (§3), a stable linear filter (§4.2). -/
def filter_by_color (products : List Product) (color : JVal) : List Product :=
  products.filter (fun p => JVal.pyEq (jstr p.color) color)

/-- Modelled from the spec: `filter.py` is not in `src/`.
`filter_by_price_range(products, min, max)` keeps the records whose
effective price lies in the inclusive range `[min, max]` (§3, §4.2; the
tests compute the same bound on `discount_price`/`regular_price`).
A malformed range with `min > max` yields the empty result (§4.2). -/
def filter_by_price_range (products : List Product) (min_price max_price : ℚ) :
    List Product :=
  products.filter (fun p =>
    decide (min_price ≤ p.effective_price) && decide (p.effective_price ≤ max_price))

/-- Modelled from the spec: `filter.py` is not in `src/`.
`filter_by_sale_status(products, on_sale)` keeps the records whose
`on_sale` field equals the criterion value — "on_sale: exact boolean
match" (§3). -/
def filter_by_sale_status (products : List Product) (on_sale : JVal) : List Product :=
  products.filter (fun p => JVal.pyEq (jbool p.on_sale) on_sale)

/-- Modelled from the spec: `filter.py` is not in `src/`.
`filter_by_brand(products, brand)` keeps the records whose `designer`
field equals the criterion value — "brand: exact string match" (§3). -/
def filter_by_brand (products : List Product) (brand : JVal) : List Product :=
  products.filter (fun p => JVal.pyEq (jstr p.designer) brand)

/-- Modelled from the spec, §4.2: "A criterion value that is empty-string
or the JSON `null` is treated as 'not provided' (no constraint), not as
'match empty/null'".  This normalization decides whether a criterion is
considered present by `apply_filters`. -/
def criterionProvided : Option JVal → Option JVal
  | none => none
  | some v => if v = jstr "" ∨ v = jnull then none else some v

/-- Modelled from the spec: `filter.py` is not in `src/`.
`apply_filters(records, color, price_range, on_sale, brand)` applies each
provided criterion independently in sequence; a record survives iff it
passes every provided criterion (logical AND, §2, §4.2); the relative
order of survivors is preserved.  The price range arrives already parsed
to a pair of bounds (its caller in `server.py` parses the `"min-max"`
string before dispatch). -/
def apply_filters (products : List Product) (color : Option JVal)
    (price_range : Option (ℚ × ℚ)) (on_sale : Option JVal)
    (brand : Option JVal) : List Product :=
  let r1 := match criterionProvided color with
    | none => products
    | some c => filter_by_color products c
  let r2 := match price_range with
    | none => r1
    | some (mn, mx) => filter_by_price_range r1 mn mx
  let r3 := match criterionProvided on_sale with
    | none => r2
    | some s => filter_by_sale_status r2 s
  match criterionProvided brand with
    | none => r3
    | some b => filter_by_brand r3 b

/-- Modelled from the spec: `filter.py` is not in `src/`.
`sort_by_price_high_to_low(products)` returns a new sequence ordered by
effective price descending; ties keep the original relative order (§4.3).
Python's `sorted` is a stable comparison sort, embedded here as a stable
insertion sort on the reversed price order. -/
def sort_by_price_high_to_low (products : List Product) : List Product :=
  products.insertionSort (fun a b => b.effective_price ≤ a.effective_price)

/-- Modelled from the spec: `filter.py` is not in `src/`.
`sort_by_price_low_to_high(products)` returns a new sequence ordered by
effective price ascending; ties keep the original relative order (§4.3). -/
def sort_by_price_low_to_high (products : List Product) : List Product :=
  products.insertionSort (fun a b => a.effective_price ≤ b.effective_price)

/-- Modelled from the spec: `filter.py` is not in `src/`.
`sort_by_popularity(products)` returns a new sequence ordered by
`popularity_score` descending; ties keep the original relative order
(§4.3). -/
def sort_by_popularity (products : List Product) : List Product :=
  products.insertionSort (fun a b => b.popularity_score ≤ a.popularity_score)

instance : IsTotal Product (fun a b => b.effective_price ≤ a.effective_price) :=
  ⟨fun a b => le_total b.effective_price a.effective_price⟩

instance : IsTrans Product (fun a b => b.effective_price ≤ a.effective_price) :=
  ⟨fun _ _ _ h1 h2 => le_trans h2 h1⟩

instance : IsTotal Product (fun a b => a.effective_price ≤ b.effective_price) :=
  ⟨fun a b => le_total a.effective_price b.effective_price⟩

instance : IsTrans Product (fun a b => a.effective_price ≤ b.effective_price) :=
  ⟨fun _ _ _ h1 h2 => le_trans h1 h2⟩

instance : IsTotal Product (fun a b => b.popularity_score ≤ a.popularity_score) :=
  ⟨fun a b => le_total b.popularity_score a.popularity_score⟩

instance : IsTrans Product (fun a b => b.popularity_score ≤ a.popularity_score) :=
  ⟨fun _ _ _ h1 h2 => le_trans h2 h1⟩

/-- Modelled from the spec: the Catalog Loader (§4.1) parses the
line-delimited JSON catalog source into an ordered sequence of records,
reloading on every call.  We embed the catalog source by the record
sequence it parses to, so the loader observes exactly that sequence. -/
def load_products (catalog : List Product) : List Product :=
  catalog

/-- A sequence of rationals is non-increasing. -/
abbrev NonIncr (l : List ℚ) : Prop :=
  l.Pairwise (fun a b => b ≤ a)

/-- A sequence of rationals is non-decreasing. -/
abbrev NonDecr (l : List ℚ) : Prop :=
  l.Pairwise (fun a b => a ≤ b)

/-- Modelled from the spec: `pagination.py` is not in `src/` (only its
caller `server.py` is).  `get_page_data(products, page, items_per_page)`
returns the bounded contiguous slice for the 1-indexed `page` — the records
from position `(page - 1) * items_per_page` (0-based), at most
`items_per_page` of them (§3, §4.4; pages below 1 are invalid inputs whose
behavior the spec leaves unspecified, §9). -/
def get_page_data (products : List Product) (page items_per_page : Nat) :
    List Product :=
  (products.drop ((page - 1) * items_per_page)).take items_per_page

/-- Modelled from the spec, §4.4: the total page count is the ceiling of
`total_items / items_per_page`, with a minimum of 1 even when
`total_items` is 0. -/
def total_page_count (total_items items_per_page : Nat) : Nat :=
  max 1 ((total_items + items_per_page - 1) / items_per_page)

/-- Pagination metadata (spec §3): total item count, total page count,
current page, and the has-next / has-previous booleans. -/
structure PaginationInfo where
  total_items : Nat
  total_pages : Nat
  current_page : Nat
  has_next : Bool
  has_previous : Bool
deriving DecidableEq

/-- Modelled from the spec: `pagination.py` is not in `src/`.
`create_pagination_info(products, page, items_per_page)` computes the
metadata of §3 for the given sequence and request. -/
def create_pagination_info (products : List Product) (page items_per_page : Nat) :
    PaginationInfo :=
  { total_items := products.length
    total_pages := total_page_count products.length items_per_page
    current_page := page
    has_next := decide (page < total_page_count products.length items_per_page)
    has_previous := decide (1 < page) }

/-- The persisted filter store `current_filters.json` (spec §6): a flat
mapping with the optional keys `color`, `brand`, `on_sale`, `price_range`
and `sort_by`; each key is absent (`none`) or holds a JSON scalar. -/
structure FilterStore where
  color : Option JVal
  brand : Option JVal
  on_sale : Option JVal
  price_range : Option JVal
  sort_by : Option JVal
deriving DecidableEq

/-- Transcribes `server.py` lines 20-21 (and 90-91): the Python idiom
`filters.get(key) or None` — an absent key or a falsy value (empty string,
`False`, `null`) becomes `None`. -/
def orNone : Option JVal → Option JVal
  | none => none
  | some v => if v.truthy then some v else none

/-- Transcribes `server.py` lines 22-26 (and 92-96):
`filters.get("on_sale") if filters.get("on_sale") is not None else None` —
only an absent key or a `null` value becomes `None`; every other value,
the empty string included, is passed through unchanged. -/
def onSaleArg : Option JVal → Option JVal
  | none => none
  | some jnull => none
  | some v => some v

/-- Decimal-literal fragment of a digit string: its value when every
character is a digit and the string is nonempty, failure otherwise. -/
def decDigits (l : List Char) : Option Nat :=
  if l ≠ [] ∧ l.all (fun c => c.isDigit) then
    some (l.foldl (fun n c => 10 * n + (c.toNat - 48)) 0)
  else none

/-- Decimal-literal fragment of Python's `float` builtin, as needed for the
bounds inside a `"min-max"` price-range string: an integer part with an
optional fractional part.  Other inputs fail the way `float` raises
`ValueError`; no claim depends on the exotic forms (signs, exponents,
whitespace, `inf`/`nan`), which a well-formed store never holds (§6). -/
def pyFloat (s : String) : Option ℚ :=
  match s.splitOn "." with
  | [intPart] => (decDigits intPart.toList).map (fun n => (n : ℚ))
  | [intPart, fracPart] =>
    match decDigits intPart.toList, decDigits fracPart.toList with
    | some n, some m => some ((n : ℚ) + (m : ℚ) / (10 : ℚ) ^ fracPart.length)
    | _, _ => none
  | _ => none

/-- Transcribes `server.py` lines 31-32 (and 101-102):
`price_parts = filters["price_range"].split("-")` followed by
`(float(price_parts[0]), float(price_parts[1]))`.  A string without a
separator raises `IndexError` and a non-numeric bound raises `ValueError`;
both are `none` (an unhandled exception in the handler). -/
def parse_range_string (s : String) : Option (ℚ × ℚ) :=
  match s.splitOn "-" with
  | p0 :: p1 :: _ =>
    match pyFloat p0, pyFloat p1 with
    | some mn, some mx => some (mn, mx)
    | _, _ => none
  | _ => none

/-- Transcribes `server.py` lines 29-32 (and 99-102): the price range is
parsed only when `filters.get("price_range")` is truthy; otherwise no
range constraint is passed on.  The outer `Option` is the possibility of
an unhandled exception (splitting a non-string, `IndexError`,
`ValueError`); the inner `Option` is criterion presence. -/
def parse_price_range : Option JVal → Option (Option (ℚ × ℚ))
  | none => some none
  | some v =>
    if v.truthy then
      match v with
      | jstr s => (parse_range_string s).map some
      | _ => none
    else some none

/-- Transcribes `server.py` lines 44-56 (and 114-126): the sort dispatch on
the persisted `sort_by` value.  The three recognized mode names are
`"price_high_to_low"`, `"price_low_to_high"` and `"popularity"`; any other
value, absent and `null` included, leaves the sequence unchanged. -/
def sortStage (sort_by : Option JVal) (products : List Product) : List Product :=
  if sort_by = some (jstr "price_high_to_low") then
    sort_by_price_high_to_low products
  else if sort_by = some (jstr "price_low_to_high") then
    sort_by_price_low_to_high products
  else if sort_by = some (jstr "popularity") then
    sort_by_popularity products
  else products

/-- Transcribes `server.py` lines 12-59: the `/data.json` branch when the
filter store exists — load the catalog, normalize the persisted criteria,
apply the filters, then the sort dispatch; the resulting record sequence
is what gets serialized, one JSON object per line.  `none` is an unhandled
exception while parsing the price range. -/
def dataJson_filtered (filters : FilterStore) (catalog : List Product) :
    Option (List Product) :=
  let all_products := load_products catalog
  let color := orNone filters.color
  let brand := orNone filters.brand
  let on_sale := onSaleArg filters.on_sale
  match parse_price_range filters.price_range with
  | none => none
  | some price_range =>
    some (sortStage filters.sort_by
      (apply_filters all_products color price_range on_sale brand))

/-- Transcribes `server.py` lines 82-126: the `/api/products` branch when
the filter store exists — the same load / normalize / filter / sort code,
repeated verbatim in the source; its value is the pre-pagination
sequence. -/
def apiProducts_filtered (filters : FilterStore) (catalog : List Product) :
    Option (List Product) :=
  let all_products := load_products catalog
  let color := orNone filters.color
  let brand := orNone filters.brand
  let on_sale := onSaleArg filters.on_sale
  match parse_price_range filters.price_range with
  | none => none
  | some price_range =>
    some (sortStage filters.sort_by
      (apply_filters all_products color price_range on_sale brand))

/-- Transcribes `server.py` lines 10-63: the record sequence the
`/data.json` endpoint serializes.  With no store the raw catalog file is
returned (lines 60-63), which is exactly the catalog sequence in
line-delimited JSON. -/
def dataJson_records (store : Option FilterStore) (catalog : List Product) :
    Option (List Product) :=
  match store with
  | some filters => dataJson_filtered filters catalog
  | none => some catalog

/-- Transcribes `server.py` lines 81-129: the pre-pagination sequence of
the `/api/products` endpoint.  With no store the loader provides the whole
catalog (lines 127-129). -/
def apiProducts_records (store : Option FilterStore) (catalog : List Product) :
    Option (List Product) :=
  match store with
  | some filters => apiProducts_filtered filters catalog
  | none => some (load_products catalog)

/-- The state a request handler can read or write: the catalog source
(read-only from the core's perspective, §5) and the single-slot persisted
filter store (absent = no active filters, §3). -/
structure ServerState where
  catalog : List Product
  store : Option FilterStore
deriving DecidableEq

/-- The request shapes the handler dispatches on (`server.py` lines 10, 69,
146-147, 150, 164, 173): the two query endpoints (with the already-parsed
`page` and `items_per_page` parameters for the paginated one), the two
mutation endpoints (`none` body = a request body `json.loads` rejects),
and the fall-through paths. -/
inductive Request where
  | getData
  | getProducts (page items_per_page : Nat)
  | getOther
  | postSetFilters (body : Option FilterStore)
  | postClearFilters
  | postOther
deriving DecidableEq

/-- The response bodies the handler can produce, at the granularity the
claims need: a serialized record sequence, a page object with metadata,
the `{"status": "success"}` object, an empty body, the static-file
fallback, or an unhandled exception. -/
inductive Body where
  | records (l : List Product)
  | page (products : List Product) (pagination : PaginationInfo)
  | statusSuccess
  | empty
  | staticFile
  | crashed
deriving DecidableEq

/-- A response: status code and body. -/
structure Response where
  code : Nat
  body : Body
deriving DecidableEq

/-- Transcribes the `do_GET` / `do_POST` dispatch of `server.py`
(lines 9-175): each request maps the server state to the next state and a
response.  `GET` never writes; `POST /api/set-filters` overwrites the
store wholesale (lines 156-158); `POST /api/clear-filters` removes it if
present (lines 164-167); other paths fall through to the static responder
or a 404. -/
def handle : Request → ServerState → ServerState × Response
  | Request.getData, s =>
    (s, match dataJson_records s.store s.catalog with
        | some records => ⟨200, Body.records records⟩
        | none => ⟨500, Body.crashed⟩)
  | Request.getProducts page items_per_page, s =>
    (s, match apiProducts_records s.store s.catalog with
        | some filtered =>
          ⟨200, Body.page (get_page_data filtered page items_per_page)
            (create_pagination_info filtered page items_per_page)⟩
        | none => ⟨500, Body.crashed⟩)
  | Request.getOther, s => (s, ⟨200, Body.staticFile⟩)
  | Request.postSetFilters body, s =>
    (match body with
     | some filters => ({ s with store := some filters }, ⟨200, Body.statusSuccess⟩)
     | none => (s, ⟨500, Body.crashed⟩))
  | Request.postClearFilters, s =>
    ({ s with store := none }, ⟨200, Body.statusSuccess⟩)
  | Request.postOther, s => (s, ⟨404, Body.empty⟩)

/-- A concrete record with the lowest popularity score of the examples. -/
def prodA : Product :=
  { product_id := 1, color := "red", designer := "gucci", on_sale := true
    regular_price := 500, discount_price := 250, popularity_score := 1 }

/-- A concrete record with a higher popularity score than `prodA`. -/
def prodB : Product :=
  { product_id := 2, color := "black", designer := "gucci", on_sale := true
    regular_price := 800, discount_price := 400, popularity_score := 2 }

/-- A concrete record used to build a three-element catalog. -/
def prodC : Product :=
  { product_id := 3, color := "black", designer := "dolce-gabbana", on_sale := false
    regular_price := 150, discount_price := 150, popularity_score := 3 }

/-- A two-record catalog whose popularity scores are strictly increasing. -/
def exCatalog : List Product :=
  [prodA, prodB]

/-- A three-record catalog for the pagination witnesses. -/
def exCatalog3 : List Product :=
  [prodA, prodB, prodC]

/-- A persisted store holding only the spec's sort-mode name
`popularity_descending`. -/
def exStorePopDesc : FilterStore :=
  { color := none, brand := none, on_sale := none, price_range := none
    sort_by := some (jstr "popularity_descending") }

/-- A persisted store holding only the sort-mode name `popularity`. -/
def exStorePop : FilterStore :=
  { color := none, brand := none, on_sale := none, price_range := none
    sort_by := some (jstr "popularity") }

/-- A persisted store with every key absent. -/
def exStoreEmpty : FilterStore :=
  { color := none, brand := none, on_sale := none, price_range := none
    sort_by := none }

/-- The high-to-low price sort produces an effective-price sequence that is
non-increasing. -/
theorem nonIncr_sort_by_price_high_to_low (l : List Product) :
    NonIncr ((sort_by_price_high_to_low l).map Product.effective_price) := by
  unfold sort_by_price_high_to_low
  exact List.pairwise_map.mpr
    (List.sorted_insertionSort (fun a b : Product => b.effective_price ≤ a.effective_price) l)

/-- The low-to-high price sort produces an effective-price sequence that is
non-decreasing. -/
theorem nonDecr_sort_by_price_low_to_high (l : List Product) :
    NonDecr ((sort_by_price_low_to_high l).map Product.effective_price) := by
  unfold sort_by_price_low_to_high
  exact List.pairwise_map.mpr
    (List.sorted_insertionSort (fun a b : Product => a.effective_price ≤ b.effective_price) l)

/-- The popularity sort produces a popularity-score sequence that is
non-increasing. -/
theorem nonIncr_sort_by_popularity (l : List Product) :
    NonIncr ((sort_by_popularity l).map Product.popularity_score) := by
  unfold sort_by_popularity
  exact List.pairwise_map.mpr
    (List.sorted_insertionSort (fun a b : Product => b.popularity_score ≤ a.popularity_score) l)

/-- Unfolding of the shared filtered-pipeline body of the `/data.json`
branch as a map over the price-range parse. -/
theorem dataJson_filtered_eq (filters : FilterStore) (catalog : List Product) :
    dataJson_filtered filters catalog =
      (parse_price_range filters.price_range).map (fun pr =>
        sortStage filters.sort_by
          (apply_filters catalog (orNone filters.color) pr
            (onSaleArg filters.on_sale) (orNone filters.brand))) := by
  unfold dataJson_filtered load_products
  cases parse_price_range filters.price_range <;> rfl

/-- Dispatching the mode name the handler recognizes for the popularity
sort runs `sort_by_popularity`. -/
theorem sortStage_popularity (products : List Product) :
    sortStage (some (jstr "popularity")) products = sort_by_popularity products := by
  unfold sortStage
  rw [if_neg (by decide), if_neg (by decide), if_pos rfl]

/-- The item count never exceeds the capacity of `total_page_count` pages. -/
theorem le_total_page_count_mul (n size : Nat) (hs : 1 ≤ size) :
    n ≤ total_page_count n size * size := by
  have h1 : n ≤ size * ((n + size - 1) / size) := by
    have h := le_smul_ceilDiv (α := ℕ) (β := ℕ) (b := n) hs
    simpa [Nat.ceilDiv_eq_add_pred_div, smul_eq_mul] using h
  calc n ≤ size * ((n + size - 1) / size) := h1
    _ ≤ size * max 1 ((n + size - 1) / size) :=
        Nat.mul_le_mul_left _ (le_max_right _ _)
    _ = total_page_count n size * size := by rw [total_page_count, Nat.mul_comm]

/-- The truncating formula `(n + size - 1) / size` computes the ceiling of
the exact division `n / size`. -/
theorem natCeil_div_eq (n size : Nat) (hs : 1 ≤ size) :
    ⌈(n : ℚ) / (size : ℚ)⌉₊ = (n + size - 1) / size := by
  have hsq : (0 : ℚ) < (size : ℚ) := by exact_mod_cast hs
  rcases Nat.eq_zero_or_pos n with rfl | hn
  · simp [Nat.div_eq_of_lt (show size - 1 < size by omega)]
  · have hq1 : 1 ≤ (n + size - 1) / size :=
      (Nat.one_le_div_iff (by omega)).mpr (by omega)
    rw [Nat.ceil_eq_iff (by omega)]
    constructor
    · rw [lt_div_iff₀ hsq]
      have hA : ((n + size - 1) / size) * size ≤ n + size - 1 :=
        Nat.div_mul_le_self _ _
      have hB : ((n + size - 1) / size - 1) * size < n := by
        rw [Nat.sub_mul, one_mul]
        have hC : ((n + size - 1) / size) * size - size ≤ n + size - 1 - size :=
          Nat.sub_le_sub_right hA size
        omega
      exact_mod_cast hB
    · rw [div_le_iff₀ hsq]
      have hD : n ≤ ((n + size - 1) / size) * size := by
        have h := le_smul_ceilDiv (α := ℕ) (β := ℕ) (b := n) hs
        simpa [Nat.ceilDiv_eq_add_pred_div, smul_eq_mul, Nat.mul_comm] using h
      exact_mod_cast hD

/-- Concatenating the first `m` chunks of width `size` gives the first
`m * size` elements. -/
theorem pages_flatten_aux (size m : Nat) :
    ∀ l : List Product,
      ((List.range m).map (fun i => (l.drop (i * size)).take size)).flatten
        = l.take (m * size) := by
  induction m with
  | zero => intro l; simp
  | succ m ih =>
    intro l
    rw [List.range_succ, List.map_append, List.flatten_append]
    simp only [List.map_cons, List.map_nil, List.flatten_cons, List.flatten_nil,
      List.append_nil]
    rw [ih l, Nat.succ_mul, List.take_add]

/-- Claim C1, counterexample: the claim says a persisted `sort_by` value of
`popularity_descending` dispatches to the popularity sort, so the query
flow would return the filtered records with `popularity_score`
non-increasing.  On a two-record catalog with strictly increasing
popularity scores and a store holding exactly that mode name, the query
flow returns the records in input order, whose popularity scores are not
non-increasing: the handler dispatches on the name `popularity`, not
`popularity_descending`. -/
theorem c1_popularity_descending_counterexample :
    dataJson_records (some exStorePopDesc) exCatalog = some exCatalog
    ∧ ¬ NonIncr (exCatalog.map Product.popularity_score) :=
  ⟨by decide, by decide⟩

/-- Claim C1, amended: for every catalog and persisted filter store whose
`sort_by` value is the sort-mode name `popularity` — the name the handler
dispatches on (`server.py` line 53) — the query flow returns the filtered
records reordered so that `popularity_score` is non-increasing. -/
theorem c1_popularity_mode_sorts_by_popularity (filters : FilterStore)
    (catalog : List Product) (hmode : filters.sort_by = some (jstr "popularity"))
    (l : List Product) (h : dataJson_records (some filters) catalog = some l) :
    NonIncr (l.map Product.popularity_score) := by
  have h' : dataJson_filtered filters catalog = some l := h
  rw [dataJson_filtered_eq] at h'
  cases hpr : parse_price_range filters.price_range with
  | none => rw [hpr] at h'; exact absurd h' (by simp)
  | some pr =>
    rw [hpr] at h'
    simp only [Option.map_some', Option.some.injEq] at h'
    subst h'
    rw [hmode, sortStage_popularity]
    exact nonIncr_sort_by_popularity _

/-- Claim C1, witness for the amended theorem at a concrete input: the
two-record catalog with increasing popularity under the store whose
`sort_by` is `popularity` comes back reversed, hence non-increasing. -/
theorem c1_popularity_mode_sorts_by_popularity_witness :
    NonIncr (([prodB, prodA] : List Product).map Product.popularity_score) :=
  c1_popularity_mode_sorts_by_popularity exStorePop exCatalog rfl
    [prodB, prodA] (by decide)

/-- Claim C2: a persisted criterion value that is the empty string or JSON
`null` is treated as "not provided" for each of `color`, `brand`,
`on_sale` and `price_range`: the record sequence the query flow computes
equals the one computed with that criterion absent. -/
theorem c2_empty_and_null_criteria_not_provided (catalog : List Product)
    (s : FilterStore) (v : JVal) (hv : v = jstr "" ∨ v = jnull) :
    dataJson_records (some { s with color := some v }) catalog
      = dataJson_records (some { s with color := none }) catalog
    ∧ dataJson_records (some { s with brand := some v }) catalog
      = dataJson_records (some { s with brand := none }) catalog
    ∧ dataJson_records (some { s with on_sale := some v }) catalog
      = dataJson_records (some { s with on_sale := none }) catalog
    ∧ dataJson_records (some { s with price_range := some v }) catalog
      = dataJson_records (some { s with price_range := none }) catalog := by
  have hor : orNone (some v) = orNone none := by
    rcases hv with rfl | rfl <;> rfl
  have hpr : parse_price_range (some v) = parse_price_range none := by
    rcases hv with rfl | rfl <;> rfl
  have hsale : ∀ products color pr brand,
      apply_filters products color pr (onSaleArg (some v)) brand
        = apply_filters products color pr (onSaleArg none) brand := by
    intro products color pr brand
    have hcp : criterionProvided (onSaleArg (some v)) = criterionProvided (onSaleArg none) := by
      rcases hv with rfl | rfl <;> rfl
    unfold apply_filters
    rw [hcp]
  refine ⟨?_, ?_, ?_, ?_⟩ <;>
    simp only [dataJson_records, dataJson_filtered_eq, hor, hpr, hsale]

/-- Claim C2, witness at a concrete input: an empty-string `color`
criterion over the two-record catalog filters nothing away. -/
theorem c2_empty_and_null_criteria_not_provided_witness :
    dataJson_records (some { exStoreEmpty with color := some (jstr "") }) exCatalog
      = dataJson_records (some { exStoreEmpty with color := none }) exCatalog :=
  (c2_empty_and_null_criteria_not_provided exCatalog exStoreEmpty (jstr "")
    (Or.inl rfl)).1

/-- Claim C3: the high-to-low price sort output, mapped to effective
price, is non-increasing; the low-to-high output is non-decreasing in
effective price; the popularity sort output is non-increasing in
`popularity_score`. -/
theorem c3_sort_outputs_monotone (l : List Product) :
    NonIncr ((sort_by_price_high_to_low l).map Product.effective_price)
    ∧ NonDecr ((sort_by_price_low_to_high l).map Product.effective_price)
    ∧ NonIncr ((sort_by_popularity l).map Product.popularity_score) :=
  ⟨nonIncr_sort_by_price_high_to_low l, nonDecr_sort_by_price_low_to_high l,
    nonIncr_sort_by_popularity l⟩

/-- Claim C4: for every record list, page size at least 1 and requested
page, the pagination metadata reports `total_pages` as the ceiling of
`total_items / page_size` with a minimum of 1 (so 1 even on an empty
list), always reports `total_items` as the sequence length, and a page
beyond `total_pages` yields empty page items rather than failing. -/
theorem c4_pagination_totals_and_overflow (l : List Product) (page size : Nat)
    (hs : 1 ≤ size) :
    (create_pagination_info l page size).total_pages
      = max 1 ⌈(l.length : ℚ) / (size : ℚ)⌉₊
    ∧ (create_pagination_info l page size).total_items = l.length
    ∧ ((create_pagination_info l page size).total_pages < page →
        get_page_data l page size = []) := by
  refine ⟨?_, rfl, ?_⟩
  · simp [create_pagination_info, total_page_count, natCeil_div_eq l.length size hs]
  · intro hp
    have h1 : l.length ≤ total_page_count l.length size * size :=
      le_total_page_count_mul _ _ hs
    have h2 : total_page_count l.length size ≤ page - 1 := by
      simp only [create_pagination_info] at hp
      omega
    have h3 : l.length ≤ (page - 1) * size :=
      le_trans h1 (Nat.mul_le_mul_right _ h2)
    rw [get_page_data, List.drop_eq_nil_of_le h3, List.take_nil]

/-- Claim C4, witness at a concrete input: page 5 of the two-record
catalog at page size 1 reports the ceiling totals and returns no items. -/
theorem c4_pagination_totals_and_overflow_witness :
    (create_pagination_info exCatalog 5 1).total_pages
      = max 1 ⌈(exCatalog.length : ℚ) / ((1 : Nat) : ℚ)⌉₊
    ∧ get_page_data exCatalog 5 1 = [] :=
  ⟨(c4_pagination_totals_and_overflow exCatalog 5 1 (by decide)).1,
    (c4_pagination_totals_and_overflow exCatalog 5 1 (by decide)).2.2 (by decide)⟩

/-- Claim C5: for every record list and page size at least 1,
concatenating the page items of pages 1 up to `total_pages` reconstructs
the full sequence, each record exactly once and in order. -/
theorem c5_pages_reconstruct_sequence (l : List Product) (size : Nat)
    (hs : 1 ≤ size) :
    ((List.range' 1 (total_page_count l.length size)).map
      (fun page => get_page_data l page size)).flatten = l := by
  rw [List.range'_eq_map_range, List.map_map]
  have hfun : ((fun page => get_page_data l page size) ∘ fun x => 1 + x)
      = fun i => (l.drop (i * size)).take size := by
    funext i
    simp [get_page_data, Function.comp, Nat.add_sub_cancel_left]
  rw [hfun, pages_flatten_aux]
  exact List.take_of_length_le (le_total_page_count_mul _ _ hs)

/-- Claim C5, witness at a concrete input: the three-record catalog at
page size 2 is reconstructed from its two pages. -/
theorem c5_pages_reconstruct_sequence_witness :
    ((List.range' 1 (total_page_count exCatalog3.length 2)).map
      (fun page => get_page_data exCatalog3 page 2)).flatten = exCatalog3 :=
  c5_pages_reconstruct_sequence exCatalog3 2 (by decide)

/-- Claim C6: `apply_filters` with no criteria supplied returns the input
list unchanged. -/
theorem c6_apply_filters_identity (records : List Product) :
    apply_filters records none none none none = records :=
  rfl

/-- Claim C7: for every persisted `sort_by` value that is absent or not
one of the mode names the sort stage recognizes (`price_high_to_low`,
`price_low_to_high`, `popularity`), the sort stage returns the records in
their input order unchanged. -/
theorem c7_unknown_sort_mode_preserves_order (sort_by : Option JVal)
    (l : List Product)
    (h1 : sort_by ≠ some (jstr "price_high_to_low"))
    (h2 : sort_by ≠ some (jstr "price_low_to_high"))
    (h3 : sort_by ≠ some (jstr "popularity")) :
    sortStage sort_by l = l := by
  unfold sortStage
  rw [if_neg h1, if_neg h2, if_neg h3]

/-- Claim C7, witness at a concrete input: an unrecognized mode name
leaves the two-record catalog in input order. -/
theorem c7_unknown_sort_mode_preserves_order_witness :
    sortStage (some (jstr "newest_first")) exCatalog = exCatalog :=
  c7_unknown_sort_mode_preserves_order (some (jstr "newest_first")) exCatalog
    (by decide) (by decide) (by decide)

/-- Claim C8: the clear-filters mutation never fails on an already-absent
store — in every state, the absent-store state included, it leaves the
store absent and responds 200 with the success body. -/
theorem c8_clear_filters_idempotent_success (s : ServerState) :
    (handle Request.postClearFilters s).1.store = none
    ∧ (handle Request.postClearFilters s).1.catalog = s.catalog
    ∧ (handle Request.postClearFilters s).2 = ⟨200, Body.statusSuccess⟩ :=
  ⟨rfl, rfl, rfl⟩

/-- Claim C9: no request-handling flow modifies the catalog source; the
catalog the loader observes is the same before and after handling every
request. -/
theorem c9_catalog_never_mutated (req : Request) (s : ServerState) :
    (handle req s).1.catalog = s.catalog
    ∧ load_products (handle req s).1.catalog = load_products s.catalog := by
  cases req with
  | postSetFilters body => cases body <;> exact ⟨rfl, rfl⟩
  | getData => exact ⟨rfl, rfl⟩
  | getProducts page items_per_page => exact ⟨rfl, rfl⟩
  | getOther => exact ⟨rfl, rfl⟩
  | postClearFilters => exact ⟨rfl, rfl⟩
  | postOther => exact ⟨rfl, rfl⟩

/-- Claim C10: for every persisted store content (absent included) and
every catalog, the record sequence serialized by the unpaginated
`/data.json` endpoint equals the pre-pagination sequence computed by the
paginated `/api/products` endpoint — the two endpoints embed the same
filter-and-sort pipeline. -/
theorem c10_endpoints_share_pipeline (store : Option FilterStore)
    (catalog : List Product) :
    dataJson_records store catalog = apiProducts_records store catalog := by
  cases store <;> rfl

end Lyst
